import Mathlib

/-!
Verification of the grand-luxury-tree scene core: the gesture debouncer of
HandGestureController.tsx, the camera baseline logic of
GestureCameraController.tsx, and the spatial-distribution / easing code of
the GrandTree scene module.

Shallow embedding conventions: JavaScript numbers are modelled as rationals
where the code is exact arithmetic (gesture callback, clamp) and as reals
where transcendental functions appear (exp, sin, cos, pow); Math.random()
samples are passed in explicitly as parameters in [0,1).
-/

namespace XmasTree

/-- The HandGesture union type of HandGestureController.tsx
(open | closed | unknown). -/
inductive HandGesture where
  | openHand
  | closedHand
  | unknownHand
deriving DecidableEq, Repr

/-- MIN_GESTURE_FRAMES = 3 (HandGestureController.tsx line 25). -/
def MIN_GESTURE_FRAMES : Nat := 3

/-- clamp(value, min, max) = Math.min(max, Math.max(min, value))
(HandGestureController.tsx line 26). -/
def clamp (value lo hi : ℚ) : ℚ := min hi (max lo value)

/-- HandMoveState: the movement event payload. -/
structure HandMoveState where
  x : ℚ
  y : ℚ
  active : Bool
deriving DecidableEq, Repr

/-- The mutable gesture refs of HandGestureController:
lastGestureRef, stableGestureRef, stableFramesRef. -/
structure GestureState where
  lastGesture : HandGesture
  stableGesture : HandGesture
  stableFrames : Nat
deriving DecidableEq, Repr

/-- Initial ref values: lastGestureRef = stableGestureRef = unknown,
stableFramesRef = 0. -/
def initialGestureState : GestureState :=
  ⟨HandGesture.unknownHand, HandGesture.unknownHand, 0⟩

/-- Palm center: centroid of landmarks 0, 5, 9, 13, 17
(getGesture, HandGestureController.tsx lines 75-86). -/
def palmCenter (landmarks : Nat → ℚ × ℚ) : ℚ × ℚ :=
  let palmPoints : List Nat := [0, 5, 9, 13, 17]
  let acc := palmPoints.foldl
    (fun acc idx => (acc.1 + (landmarks idx).1, acc.2 + (landmarks idx).2))
    ((0 : ℚ), (0 : ℚ))
  (acc.1 / palmPoints.length, acc.2 / palmPoints.length)

/-- The movement event emitted while a hand is detected
(lines 156-158): both coordinates are remapped by (c - 0.5) * 2 and
clamped to [-1, 1], active = true. -/
def handMove (center : ℚ × ℚ) : HandMoveState :=
  ⟨clamp ((center.1 - 0.5) * 2) (-1) 1, clamp ((center.2 - 0.5) * 2) (-1) 1, true⟩

/-- The neutral movement emitted when no hand is detected (line 145). -/
def noHandMove : HandMoveState := ⟨0, 0, false⟩

/-- Everything one inference callback emits: one movement event and at most
one gesture event. -/
structure CallbackOut where
  move : HandMoveState
  emitted : Option HandGesture
deriving DecidableEq, Repr

/-- One hands.onResults inference callback (HandGestureController.tsx lines
136-181), restricted to the gesture/move logic. Input is none when no hand
is detected, and some (gesture, center) when a hand is present, where
gesture is getGesture's classification and center its palm centroid.
No hand: emit the neutral move, reset stableGesture to unknown and
stableFrames to 0 (lastGesture is not touched). Hand present: emit the
clamped move; if the classification changed, restart the streak at 1, else
increment it; fire a gesture event only when the gesture is not unknown,
the streak has reached MIN_GESTURE_FRAMES, and the gesture differs from the
last emitted one. -/
def nextStableFrames (s : GestureState) (gesture : HandGesture) : Nat :=
  if gesture ≠ s.stableGesture then 1 else s.stableFrames + 1

def onResults (s : GestureState) (input : Option (HandGesture × ℚ × ℚ)) :
    GestureState × CallbackOut :=
  match input with
  | none =>
    (⟨s.lastGesture, HandGesture.unknownHand, 0⟩, ⟨noHandMove, none⟩)
  | some (gesture, center) =>
    if gesture ≠ HandGesture.unknownHand ∧
        nextStableFrames s gesture ≥ MIN_GESTURE_FRAMES ∧
        gesture ≠ s.lastGesture then
      (⟨gesture, gesture, nextStableFrames s gesture⟩,
        ⟨handMove center, some gesture⟩)
    else
      (⟨s.lastGesture, gesture, nextStableFrames s gesture⟩,
        ⟨handMove center, none⟩)

/-- Fold a sequence of inference callbacks, collecting each callback's
output in order. -/
def runCallbacks (s : GestureState) :
    List (Option (HandGesture × ℚ × ℚ)) → GestureState × List CallbackOut
  | [] => (s, [])
  | input :: rest =>
    let step := onResults s input
    let tail := runCallbacks step.1 rest
    (tail.1, step.2 :: tail.2)

/-- A hand-present callback classified open, palm centered. -/
def openInput : Option (HandGesture × ℚ × ℚ) :=
  some (HandGesture.openHand, (1/2, 1/2))

/-- A hand-present callback classified closed, palm centered. -/
def closedInput : Option (HandGesture × ℚ × ℚ) :=
  some (HandGesture.closedHand, (1/2, 1/2))

/-- Claim C2: from the initial gesture state, the classification sequence
[open, open, closed, open, open, open] with a hand present on every
callback emits exactly one gesture event, an open event fired on the sixth
callback (the third consecutive open of the tail), not one per open
classification. -/
theorem C2_debounce_emits_once :
    (runCallbacks initialGestureState
        [openInput, openInput, closedInput, openInput, openInput, openInput]).2.map
        CallbackOut.emitted =
      [none, none, none, none, none, some HandGesture.openHand] := by
  decide

/-- Claim C3: a callback reporting no detected hand resets the gesture
state immediately: stableFrames becomes 0 and stableGesture becomes
unknown, from any prior state. -/
theorem C3_presence_loss_resets (s : GestureState) :
    (onResults s none).1.stableFrames = 0 ∧
      (onResults s none).1.stableGesture = HandGesture.unknownHand :=
  ⟨rfl, rfl⟩

theorem onResults_none_lastGesture (s : GestureState) :
    (onResults s none).1.lastGesture = s.lastGesture := rfl

theorem onResults_same_as_last (s : GestureState) (g : HandGesture)
    (c : ℚ × ℚ) (h : s.lastGesture = g) :
    (onResults s (some (g, c))).1.lastGesture = g ∧
      (onResults s (some (g, c))).2.emitted = none := by
  simp only [onResults]
  rw [if_neg]
  · exact ⟨h, rfl⟩
  · rintro ⟨-, -, hne⟩
    exact hne h.symm

theorem runCallbacks_same_gesture_silent (g : HandGesture) (c : ℚ × ℚ) :
    ∀ (n : Nat) (s : GestureState), s.lastGesture = g →
      ∀ out ∈ (runCallbacks s (List.replicate n (some (g, c)))).2,
        out.emitted = none := by
  intro n
  induction n with
  | zero => intro s _ out hmem; simp [runCallbacks] at hmem
  | succ k ih =>
    intro s hs out hmem
    rw [List.replicate_succ] at hmem
    simp only [runCallbacks, List.mem_cons] at hmem
    rcases hmem with hout | hmem
    · rw [hout]
      exact (onResults_same_as_last s g c hs).2
    · exact ih (onResults s (some (g, c))).1
        (onResults_same_as_last s g c hs).1 out hmem

/-- Claim C10: the last emitted gesture survives presence loss: after a
no-hand callback the lastGesture memory is unchanged, and re-detecting the
hand with a classification equal to the last emitted gesture never fires a
new gesture event, no matter how many consecutive stable frames accumulate. -/
theorem C10_no_refire_after_loss (s : GestureState) (g : HandGesture)
    (c : ℚ × ℚ) (n : Nat) (h : s.lastGesture = g) :
    (onResults s none).1.lastGesture = g ∧
      ∀ out ∈ (runCallbacks (onResults s none).1
          (List.replicate n (some (g, c)))).2,
        out.emitted = none := by
  refine ⟨h, ?_⟩
  exact runCallbacks_same_gesture_silent g c n (onResults s none).1 h

/-- Closed witness for C10 at a concrete state, gesture and frame count. -/
theorem C10_no_refire_after_loss_witness :
    (GestureState.mk HandGesture.openHand HandGesture.openHand 5).lastGesture =
        HandGesture.openHand ∧
      ((onResults ⟨HandGesture.openHand, HandGesture.openHand, 5⟩
            none).1.lastGesture = HandGesture.openHand ∧
        ∀ out ∈ (runCallbacks
            (onResults ⟨HandGesture.openHand, HandGesture.openHand, 5⟩ none).1
            (List.replicate 7 (some (HandGesture.openHand, ((0 : ℚ), (0 : ℚ)))))).2,
          out.emitted = none) :=
  ⟨rfl, C10_no_refire_after_loss ⟨HandGesture.openHand, HandGesture.openHand, 5⟩
    HandGesture.openHand ((0 : ℚ), (0 : ℚ)) 7 rfl⟩

theorem onResults_some_move (s : GestureState) (g : HandGesture)
    (c : ℚ × ℚ) : (onResults s (some (g, c))).2.move = handMove c := by
  simp only [onResults]
  split <;> rfl

theorem clamp_mem (v : ℚ) : -1 ≤ clamp v (-1) 1 ∧ clamp v (-1) 1 ≤ 1 := by
  unfold clamp
  constructor
  · exact le_min (by norm_num) (le_max_left _ _)
  · exact min_le_left _ _

/-- Claim C9: every movement event emitted while a hand is detected has
both coordinates clamped to [-1, 1] (for arbitrary landmark positions, even
outside the [0,1] image square) and active = true; every callback with no
detected hand emits exactly the neutral movement (0, 0, inactive). -/
theorem C9_move_invariants (s : GestureState) (g : HandGesture)
    (landmarks : Nat → ℚ × ℚ) :
    (-1 ≤ (onResults s (some (g, palmCenter landmarks))).2.move.x ∧
      (onResults s (some (g, palmCenter landmarks))).2.move.x ≤ 1 ∧
      -1 ≤ (onResults s (some (g, palmCenter landmarks))).2.move.y ∧
      (onResults s (some (g, palmCenter landmarks))).2.move.y ≤ 1 ∧
      (onResults s (some (g, palmCenter landmarks))).2.move.active = true) ∧
    (onResults s none).2.move = noHandMove := by
  rw [onResults_some_move]
  refine ⟨⟨(clamp_mem _).1, (clamp_mem _).2, (clamp_mem _).1,
    (clamp_mem _).2, rfl⟩, rfl⟩

noncomputable section

open Filter

/-- Tree cone height (part_002 line 32). -/
def TREE_HEIGHT : ℝ := 4.6

/-- Tree cone base radius (part_002 line 33). -/
def TREE_RADIUS : ℝ := 2.1

/-- Spiral turn count (part_002 line 42). -/
def SPIRAL_TURNS : ℝ := 3.4

/-- THREE.MathUtils.lerp and the coordinatewise action of
THREE.Vector3.lerp: a + (b - a) * t. -/
def lerp (a b t : ℝ) : ℝ := a + (b - a) * t

/-- A THREE.Vector3 (also used for Euler angle triples). -/
structure Vec3 where
  x : ℝ
  y : ℝ
  z : ℝ

/-- Vector3.lerp, coordinatewise. -/
def lerpV (a b : Vec3) (t : ℝ) : Vec3 :=
  ⟨lerp a.x b.x t, lerp a.y b.y t, lerp a.z b.z t⟩

/-- Coordinatewise difference of two points. -/
def subV (a b : Vec3) : Vec3 := ⟨a.x - b.x, a.y - b.y, a.z - b.z⟩

/-- Squared Euclidean norm. -/
def normSq (v : Vec3) : ℝ := v.x ^ 2 + v.y ^ 2 + v.z ^ 2

/-- One exponential ease step toward a target:
current.lerp(tgt, 1 - Math.exp(-rate * dt)) (part_002 lines 590-591 with
rate = 0.9 + weight * 1.6). -/
def easeStep (rate dt : ℝ) (current tgt : Vec3) : Vec3 :=
  lerpV current tgt (1 - Real.exp (-(rate * dt)))

/-- The per-instance per-frame position update of updateInstances
(part_002 lines 587-591): chaosFactor = min(1, progress + weight*0.18),
blended = target.lerp(chaos, chaosFactor),
current = current.lerp(blended, 1 - exp(-(0.9 + weight*1.6)*dt)). -/
def updateCurrent (progress weight dt : ℝ) (target chaos current : Vec3) :
    Vec3 :=
  easeStep (0.9 + weight * 1.6) dt current
    (lerpV target chaos (min 1 (progress + weight * 0.18)))

theorem lerpV_one (a b : Vec3) : lerpV a b 1 = b := by
  cases a
  cases b
  simp only [lerpV, lerp, Vec3.mk.injEq]
  refine ⟨by ring, by ring, by ring⟩

theorem exp_rate_lt_one (rate dt : ℝ) (hrate : 0 < rate) (hdt : 0 < dt) :
    Real.exp (-(rate * dt)) < 1 :=
  Real.exp_lt_one_iff.mpr (neg_neg_iff_pos.mpr (mul_pos hrate hdt))

/-- Claim C4: one ease step toward a fixed target, with rate > 0 and
dt > 0, does not increase the squared distance to the target, and on each
coordinate the displacement keeps its sign (the step never crosses the
target), so repeated application never overshoots. -/
theorem C4_ease_no_overshoot (rate dt : ℝ) (current tgt : Vec3)
    (hrate : 0 < rate) (hdt : 0 < dt) :
    normSq (subV (easeStep rate dt current tgt) tgt) ≤
        normSq (subV current tgt) ∧
      0 ≤ ((easeStep rate dt current tgt).x - tgt.x) * (current.x - tgt.x) ∧
      0 ≤ ((easeStep rate dt current tgt).y - tgt.y) * (current.y - tgt.y) ∧
      0 ≤ ((easeStep rate dt current tgt).z - tgt.z) * (current.z - tgt.z) := by
  have he0 : 0 < Real.exp (-(rate * dt)) := Real.exp_pos _
  have he1 : Real.exp (-(rate * dt)) < 1 := exp_rate_lt_one rate dt hrate hdt
  have hx : (easeStep rate dt current tgt).x - tgt.x =
      (current.x - tgt.x) * Real.exp (-(rate * dt)) := by
    simp only [easeStep, lerpV, lerp]
    ring
  have hy : (easeStep rate dt current tgt).y - tgt.y =
      (current.y - tgt.y) * Real.exp (-(rate * dt)) := by
    simp only [easeStep, lerpV, lerp]
    ring
  have hz : (easeStep rate dt current tgt).z - tgt.z =
      (current.z - tgt.z) * Real.exp (-(rate * dt)) := by
    simp only [easeStep, lerpV, lerp]
    ring
  have he2 : Real.exp (-(rate * dt)) ^ 2 ≤ 1 := by nlinarith
  have key : ∀ a : ℝ, (a * Real.exp (-(rate * dt))) ^ 2 ≤ a ^ 2 := by
    intro a
    calc (a * Real.exp (-(rate * dt))) ^ 2
        = a ^ 2 * Real.exp (-(rate * dt)) ^ 2 := by ring
      _ ≤ a ^ 2 * 1 := mul_le_mul_of_nonneg_left he2 (sq_nonneg a)
      _ = a ^ 2 := mul_one _
  refine ⟨?_, ?_, ?_, ?_⟩
  · simp only [normSq, subV]
    rw [hx, hy, hz]
    exact add_le_add (add_le_add (key _) (key _)) (key _)
  · rw [hx]
    nlinarith [sq_nonneg (current.x - tgt.x)]
  · rw [hy]
    nlinarith [sq_nonneg (current.y - tgt.y)]
  · rw [hz]
    nlinarith [sq_nonneg (current.z - tgt.z)]

/-- Closed witness for C4 at rate = 1, dt = 1, current = (1,2,3),
target = (0,0,0). -/
theorem C4_ease_no_overshoot_witness :
    (0 : ℝ) < 1 ∧
      (normSq (subV (easeStep 1 1 ⟨1, 2, 3⟩ ⟨0, 0, 0⟩) ⟨0, 0, 0⟩) ≤
          normSq (subV (⟨1, 2, 3⟩ : Vec3) ⟨0, 0, 0⟩) ∧
        0 ≤ ((easeStep 1 1 ⟨1, 2, 3⟩ ⟨0, 0, 0⟩).x - (Vec3.mk 0 0 0).x) *
            ((Vec3.mk 1 2 3).x - (Vec3.mk 0 0 0).x) ∧
        0 ≤ ((easeStep 1 1 ⟨1, 2, 3⟩ ⟨0, 0, 0⟩).y - (Vec3.mk 0 0 0).y) *
            ((Vec3.mk 1 2 3).y - (Vec3.mk 0 0 0).y) ∧
        0 ≤ ((easeStep 1 1 ⟨1, 2, 3⟩ ⟨0, 0, 0⟩).z - (Vec3.mk 0 0 0).z) *
            ((Vec3.mk 1 2 3).z - (Vec3.mk 0 0 0).z)) :=
  ⟨by norm_num,
    C4_ease_no_overshoot 1 1 ⟨1, 2, 3⟩ ⟨0, 0, 0⟩ (by norm_num) (by norm_num)⟩

theorem lerp_iterate_closed_form (B e c0 : ℝ) (n : ℕ) :
    (fun c => lerp c B (1 - e))^[n] c0 = B + (c0 - B) * e ^ n := by
  induction n with
  | zero =>
    simp only [Function.iterate_zero, id_eq, pow_zero]
    ring
  | succ k ih =>
    rw [Function.iterate_succ_apply', ih]
    simp only [lerp, pow_succ]
    ring

theorem updateCurrent_iterate_comp (progress weight dt : ℝ)
    (target chaos v0 : Vec3) (n : ℕ) :
    (updateCurrent progress weight dt target chaos)^[n] v0 =
      ⟨(fun c => lerp c
          (lerpV target chaos (min 1 (progress + weight * 0.18))).x
          (1 - Real.exp (-((0.9 + weight * 1.6) * dt))))^[n] v0.x,
        (fun c => lerp c
          (lerpV target chaos (min 1 (progress + weight * 0.18))).y
          (1 - Real.exp (-((0.9 + weight * 1.6) * dt))))^[n] v0.y,
        (fun c => lerp c
          (lerpV target chaos (min 1 (progress + weight * 0.18))).z
          (1 - Real.exp (-((0.9 + weight * 1.6) * dt))))^[n] v0.z⟩ := by
  induction n with
  | zero => rfl
  | succ k ih =>
    simp only [Function.iterate_succ_apply']
    rw [ih]
    rfl

theorem tendsto_geom_offset (B d e : ℝ) (h0 : 0 ≤ e) (h1 : e < 1) :
    Tendsto (fun n : ℕ => B + d * e ^ n) atTop (nhds B) := by
  have hpow := tendsto_pow_atTop_nhds_zero_of_lt_one h0 h1
  have h2 : Tendsto (fun n : ℕ => d * e ^ n) atTop (nhds 0) := by
    simpa using hpow.const_mul d
  simpa using h2.const_add B

/-- From any start and for any weight ≥ 0, dt > 0, the iterated per-frame
update drives each coordinate of current to the blended target
lerp(target, chaos, min(1, progress + weight * 0.18)). -/
theorem updateCurrent_tendsto (progress weight dt : ℝ)
    (target chaos v0 : Vec3) (hw : 0 ≤ weight) (hdt : 0 < dt) :
    Tendsto (fun n =>
        ((updateCurrent progress weight dt target chaos)^[n] v0).x) atTop
      (nhds ((lerpV target chaos (min 1 (progress + weight * 0.18))).x)) ∧
    Tendsto (fun n =>
        ((updateCurrent progress weight dt target chaos)^[n] v0).y) atTop
      (nhds ((lerpV target chaos (min 1 (progress + weight * 0.18))).y)) ∧
    Tendsto (fun n =>
        ((updateCurrent progress weight dt target chaos)^[n] v0).z) atTop
      (nhds ((lerpV target chaos (min 1 (progress + weight * 0.18))).z)) := by
  have hrate : 0 < 0.9 + weight * 1.6 := by nlinarith
  have he0 : 0 ≤ Real.exp (-((0.9 + weight * 1.6) * dt)) := (Real.exp_pos _).le
  have he1 : Real.exp (-((0.9 + weight * 1.6) * dt)) < 1 :=
    exp_rate_lt_one _ dt hrate hdt
  refine ⟨?_, ?_, ?_⟩
  · refine (tendsto_geom_offset
        ((lerpV target chaos (min 1 (progress + weight * 0.18))).x)
        (v0.x - (lerpV target chaos (min 1 (progress + weight * 0.18))).x)
        (Real.exp (-((0.9 + weight * 1.6) * dt))) he0 he1).congr fun n => ?_
    rw [updateCurrent_iterate_comp]
    simp only [lerp_iterate_closed_form]
  · refine (tendsto_geom_offset
        ((lerpV target chaos (min 1 (progress + weight * 0.18))).y)
        (v0.y - (lerpV target chaos (min 1 (progress + weight * 0.18))).y)
        (Real.exp (-((0.9 + weight * 1.6) * dt))) he0 he1).congr fun n => ?_
    rw [updateCurrent_iterate_comp]
    simp only [lerp_iterate_closed_form]
  · refine (tendsto_geom_offset
        ((lerpV target chaos (min 1 (progress + weight * 0.18))).z)
        (v0.z - (lerpV target chaos (min 1 (progress + weight * 0.18))).z)
        (Real.exp (-((0.9 + weight * 1.6) * dt))) he0 he1).congr fun n => ?_
    rw [updateCurrent_iterate_comp]
    simp only [lerp_iterate_closed_form]

/-- Claim C1 (amended): with weight ≥ 0 and any fixed dt > 0, iterating
the per-frame easing step at progress = 1 drives every coordinate of
current to chaos; at progress = 0 it drives current to
lerp(target, chaos, min(1, weight * 0.18)) — the blended target with
chaosFactor = weight * 0.18 — which coincides with target only when that
factor or the target-to-chaos offset vanishes. -/
theorem C1_progress_limits (weight dt : ℝ) (target chaos v0 : Vec3)
    (hw : 0 ≤ weight) (hdt : 0 < dt) :
    (Tendsto (fun n => ((updateCurrent 1 weight dt target chaos)^[n] v0).x)
        atTop (nhds chaos.x) ∧
      Tendsto (fun n => ((updateCurrent 1 weight dt target chaos)^[n] v0).y)
        atTop (nhds chaos.y) ∧
      Tendsto (fun n => ((updateCurrent 1 weight dt target chaos)^[n] v0).z)
        atTop (nhds chaos.z)) ∧
    (Tendsto (fun n => ((updateCurrent 0 weight dt target chaos)^[n] v0).x)
        atTop (nhds ((lerpV target chaos (min 1 (weight * 0.18))).x)) ∧
      Tendsto (fun n => ((updateCurrent 0 weight dt target chaos)^[n] v0).y)
        atTop (nhds ((lerpV target chaos (min 1 (weight * 0.18))).y)) ∧
      Tendsto (fun n => ((updateCurrent 0 weight dt target chaos)^[n] v0).z)
        atTop (nhds ((lerpV target chaos (min 1 (weight * 0.18))).z))) := by
  constructor
  · have h := updateCurrent_tendsto 1 weight dt target chaos v0 hw hdt
    rw [show min 1 (1 + weight * 0.18) = 1 from min_eq_left (by nlinarith),
      lerpV_one] at h
    exact h
  · have h := updateCurrent_tendsto 0 weight dt target chaos v0 hw hdt
    rw [zero_add] at h
    exact h

/-- Closed witness for C1 at weight = 0, dt = 1, target = (0,0,0),
chaos = (1,0,0), start = (2,2,2). -/
theorem C1_progress_limits_witness :
    (0 : ℝ) ≤ 0 ∧ (0 : ℝ) < 1 ∧
      ((Tendsto (fun n =>
            ((updateCurrent 1 0 1 ⟨0, 0, 0⟩ ⟨1, 0, 0⟩)^[n] ⟨2, 2, 2⟩).x)
          atTop (nhds (Vec3.mk 1 0 0).x) ∧
        Tendsto (fun n =>
            ((updateCurrent 1 0 1 ⟨0, 0, 0⟩ ⟨1, 0, 0⟩)^[n] ⟨2, 2, 2⟩).y)
          atTop (nhds (Vec3.mk 1 0 0).y) ∧
        Tendsto (fun n =>
            ((updateCurrent 1 0 1 ⟨0, 0, 0⟩ ⟨1, 0, 0⟩)^[n] ⟨2, 2, 2⟩).z)
          atTop (nhds (Vec3.mk 1 0 0).z)) ∧
      (Tendsto (fun n =>
            ((updateCurrent 0 0 1 ⟨0, 0, 0⟩ ⟨1, 0, 0⟩)^[n] ⟨2, 2, 2⟩).x)
          atTop (nhds ((lerpV ⟨0, 0, 0⟩ ⟨1, 0, 0⟩ (min 1 (0 * 0.18))).x)) ∧
        Tendsto (fun n =>
            ((updateCurrent 0 0 1 ⟨0, 0, 0⟩ ⟨1, 0, 0⟩)^[n] ⟨2, 2, 2⟩).y)
          atTop (nhds ((lerpV ⟨0, 0, 0⟩ ⟨1, 0, 0⟩ (min 1 (0 * 0.18))).y)) ∧
        Tendsto (fun n =>
            ((updateCurrent 0 0 1 ⟨0, 0, 0⟩ ⟨1, 0, 0⟩)^[n] ⟨2, 2, 2⟩).z)
          atTop (nhds ((lerpV ⟨0, 0, 0⟩ ⟨1, 0, 0⟩ (min 1 (0 * 0.18))).z)))) :=
  ⟨le_refl 0, by norm_num,
    C1_progress_limits 0 1 ⟨0, 0, 0⟩ ⟨1, 0, 0⟩ ⟨2, 2, 2⟩ (le_refl 0)
      (by norm_num)⟩

/-- Claim C1 as stated is false at progress = 0: with weight 1, dt 1,
target (0,0,0), chaos (1,0,0) and current starting at the target, the
iterated per-frame update does not converge to the target x-coordinate 0
(it converges to the blended value 0.18 instead). -/
theorem C1_counterexample :
    ¬ Tendsto (fun n =>
        ((updateCurrent 0 1 1 ⟨0, 0, 0⟩ ⟨1, 0, 0⟩)^[n] ⟨0, 0, 0⟩).x)
      atTop (nhds (0 : ℝ)) := by
  intro hcon
  have h := (updateCurrent_tendsto 0 1 1 ⟨0, 0, 0⟩ ⟨1, 0, 0⟩ ⟨0, 0, 0⟩
    (by norm_num) (by norm_num)).1
  have harg : (0 : ℝ) + 1 * 0.18 = 0.18 := by norm_num
  rw [harg, min_eq_right (by norm_num : (0.18 : ℝ) ≤ 1)] at h
  have hB : (lerpV (⟨0, 0, 0⟩ : Vec3) ⟨1, 0, 0⟩ 0.18).x = 0.18 := by
    show (0 : ℝ) + (1 - 0) * 0.18 = 0.18
    norm_num
  rw [hB] at h
  have heq : (0 : ℝ) = 0.18 := tendsto_nhds_unique hcon h
  norm_num at heq

/-- The helix angle of spiral instance i:
t * π * 2 * SPIRAL_TURNS + phase with t = i / count
(buildSpiralData, part_002 line 258). -/
def spiralAngle (count i : ℕ) (phase : ℝ) : ℝ :=
  ((i : ℝ) / count) * Real.pi * 2 * SPIRAL_TURNS + phase

/-- The target point of spiral instance i (buildSpiralData, part_002 lines
254-264): x = cos(angle) * (radiusAtY + jitter), y = t*H - H/2 +
jitter * 0.2, z = sin(angle) * (radiusAtY + jitter), where rand in [0,1)
is the Math.random() sample and jitter = (rand - 0.5) * 0.08. -/
def spiralTarget (count i : ℕ) (phase radiusScale rand : ℝ) : Vec3 :=
  ⟨Real.cos (spiralAngle count i phase) *
      ((1 - (i : ℝ) / count) * TREE_RADIUS * radiusScale +
        (rand - 0.5) * 0.08),
    ((i : ℝ) / count) * TREE_HEIGHT - TREE_HEIGHT / 2 +
      (rand - 0.5) * 0.08 * 0.2,
    Real.sin (spiralAngle count i phase) *
      ((1 - (i : ℝ) / count) * TREE_RADIUS * radiusScale +
        (rand - 0.5) * 0.08)⟩

/-- Claim C5 as stated is false: the two strands draw independent jitter
samples, so at index 0 with jitter samples 0.75 (phase π strand) and 0.5
(phase 0 strand) the generated heights differ: -2.296 versus -2.3. -/
theorem C5_counterexample :
    (spiralTarget 90 0 Real.pi 0.98 0.75).y ≠
      (spiralTarget 90 0 0 1.03 0.5).y := by
  simp only [spiralTarget, TREE_HEIGHT]
  norm_num

/-- Claim C5 (amended): at the same index the phase-π point and the
phase-0 point sit at helix angles differing by exactly π — the phase-π
point's horizontal coordinates are the negated cosine/sine of the phase-0
angle times its own radius — and both heights equal the deterministic
t*H - H/2 plus an independent per-strand jitter of magnitude at most
0.008, so the two heights agree within 0.016, and exactly when the two
jitter samples coincide. -/
theorem C5_spiral_interleave (count i : ℕ) (rs1 rs2 rand1 rand2 : ℝ)
    (hr1 : 0 ≤ rand1) (hr1' : rand1 ≤ 1) (hr2 : 0 ≤ rand2)
    (hr2' : rand2 ≤ 1) :
    spiralAngle count i Real.pi = spiralAngle count i 0 + Real.pi ∧
    (spiralTarget count i Real.pi rs2 rand2).x =
      -(Real.cos (spiralAngle count i 0) *
        ((1 - (i : ℝ) / count) * TREE_RADIUS * rs2 + (rand2 - 0.5) * 0.08)) ∧
    (spiralTarget count i Real.pi rs2 rand2).z =
      -(Real.sin (spiralAngle count i 0) *
        ((1 - (i : ℝ) / count) * TREE_RADIUS * rs2 + (rand2 - 0.5) * 0.08)) ∧
    (spiralTarget count i 0 rs1 rand1).x =
      Real.cos (spiralAngle count i 0) *
        ((1 - (i : ℝ) / count) * TREE_RADIUS * rs1 + (rand1 - 0.5) * 0.08) ∧
    (spiralTarget count i 0 rs1 rand1).z =
      Real.sin (spiralAngle count i 0) *
        ((1 - (i : ℝ) / count) * TREE_RADIUS * rs1 + (rand1 - 0.5) * 0.08) ∧
    |(spiralTarget count i Real.pi rs2 rand2).y -
        (spiralTarget count i 0 rs1 rand1).y| ≤ 0.016 ∧
    (rand1 = rand2 →
      (spiralTarget count i Real.pi rs2 rand2).y =
        (spiralTarget count i 0 rs1 rand1).y) := by
  have hang : spiralAngle count i Real.pi = spiralAngle count i 0 + Real.pi := by
    simp only [spiralAngle]
    ring
  refine ⟨hang, ?_, ?_, rfl, rfl, ?_, ?_⟩
  · show Real.cos (spiralAngle count i Real.pi) * _ = _
    rw [hang, Real.cos_add, Real.cos_pi, Real.sin_pi]
    ring
  · show Real.sin (spiralAngle count i Real.pi) * _ = _
    rw [hang, Real.sin_add, Real.cos_pi, Real.sin_pi]
    ring
  · have hdiff : (spiralTarget count i Real.pi rs2 rand2).y -
        (spiralTarget count i 0 rs1 rand1).y = (rand2 - rand1) * 0.016 := by
      simp only [spiralTarget]
      ring
    rw [hdiff, abs_le]
    constructor <;> nlinarith
  · intro he
    simp only [spiralTarget, he]

/-- Closed witness for the amended C5 at count = 2, index 1,
radius scales 1 and 1, jitter samples 0 and 1. -/
theorem C5_spiral_interleave_witness :
    (0 : ℝ) ≤ 0 ∧ (0 : ℝ) ≤ 1 ∧ (0 : ℝ) ≤ 1 ∧ (1 : ℝ) ≤ 1 ∧
      (spiralAngle 2 1 Real.pi = spiralAngle 2 1 0 + Real.pi ∧
      (spiralTarget 2 1 Real.pi 1 1).x =
        -(Real.cos (spiralAngle 2 1 0) *
          ((1 - ((1 : ℕ) : ℝ) / 2) * TREE_RADIUS * 1 + ((1 : ℝ) - 0.5) * 0.08)) ∧
      (spiralTarget 2 1 Real.pi 1 1).z =
        -(Real.sin (spiralAngle 2 1 0) *
          ((1 - ((1 : ℕ) : ℝ) / 2) * TREE_RADIUS * 1 + ((1 : ℝ) - 0.5) * 0.08)) ∧
      (spiralTarget 2 1 0 1 0).x =
        Real.cos (spiralAngle 2 1 0) *
          ((1 - ((1 : ℕ) : ℝ) / 2) * TREE_RADIUS * 1 + ((0 : ℝ) - 0.5) * 0.08) ∧
      (spiralTarget 2 1 0 1 0).z =
        Real.sin (spiralAngle 2 1 0) *
          ((1 - ((1 : ℕ) : ℝ) / 2) * TREE_RADIUS * 1 + ((0 : ℝ) - 0.5) * 0.08) ∧
      |(spiralTarget 2 1 Real.pi 1 1).y - (spiralTarget 2 1 0 1 0).y| ≤ 0.016 ∧
      ((0 : ℝ) = 1 →
        (spiralTarget 2 1 Real.pi 1 1).y = (spiralTarget 2 1 0 1 0).y)) :=
  ⟨le_refl 0, by norm_num, by norm_num, le_refl 1,
    C5_spiral_interleave 2 1 1 1 0 1 (le_refl 0) (by norm_num) (by norm_num)
      (le_refl 1)⟩

/-- The stratified height parameter of layered instance i:
lerp(tMin, tMax, ((i + rand) / count) ^ tPower)
(buildLayeredOrnaments, part_002 lines 166-167); rand in [0,1) is the
Math.random() sample; Math.pow is real exponentiation. -/
def layeredT (count i : ℕ) (tMin tMax tPower rand : ℝ) : ℝ :=
  lerp tMin tMax ((((i : ℝ) + rand) / count) ^ tPower)

/-- The y position of layered instance i: t*H - H/2 plus the vertical
jitter (rand2 - 0.5) * 0.12 (part_002 line 168). -/
def layeredY (t rand2 : ℝ) : ℝ :=
  t * TREE_HEIGHT - TREE_HEIGHT / 2 + (rand2 - 0.5) * 0.12

/-- Claim C6: with tPower = 1 the stratified height parameter t is
monotone non-decreasing in the instance index, for any jitter samples in
[0,1) drawn by consecutive instances, and the vertical position deviates
from t*H - H/2 by the per-instance jitter only, at most 0.06. -/
theorem C6_layered_monotone (count i : ℕ) (tMin tMax rand1 rand2 rand3 : ℝ)
    (hc : 0 < count) (ht : tMin ≤ tMax) (hr1 : 0 ≤ rand1) (hr1' : rand1 < 1)
    (hr2 : 0 ≤ rand2) (hr3 : 0 ≤ rand3) (hr3' : rand3 ≤ 1) :
    layeredT count i tMin tMax 1 rand1 ≤
        layeredT count (i + 1) tMin tMax 1 rand2 ∧
      |layeredY (layeredT count i tMin tMax 1 rand1) rand3 -
          (layeredT count i tMin tMax 1 rand1 * TREE_HEIGHT -
            TREE_HEIGHT / 2)| ≤ 0.06 := by
  constructor
  · have hcount : (0 : ℝ) < count := by exact_mod_cast hc
    have hnum : ((i : ℝ) + rand1) ≤ ((i + 1 : ℕ) : ℝ) + rand2 := by
      push_cast
      linarith
    have hdiv : ((i : ℝ) + rand1) / count ≤ (((i + 1 : ℕ) : ℝ) + rand2) / count :=
      div_le_div_of_nonneg_right hnum hcount.le
    simp only [layeredT, Real.rpow_one, lerp]
    nlinarith
  · have hdiff : layeredY (layeredT count i tMin tMax 1 rand1) rand3 -
        (layeredT count i tMin tMax 1 rand1 * TREE_HEIGHT -
          TREE_HEIGHT / 2) = (rand3 - 0.5) * 0.12 := by
      simp only [layeredY]
      ring
    rw [hdiff, abs_le]
    constructor <;> nlinarith

/-- Closed witness for C6 at count = 50, index 3, tMin = 0.08,
tMax = 0.92, jitter samples 1/2, 1/4 and 1/2. -/
theorem C6_layered_monotone_witness :
    (0 < 50) ∧ ((0.08 : ℝ) ≤ 0.92) ∧ ((0 : ℝ) ≤ 1/2) ∧ ((1/2 : ℝ) < 1) ∧
      ((0 : ℝ) ≤ 1/4) ∧ ((0 : ℝ) ≤ 1/2) ∧ ((1/2 : ℝ) ≤ 1) ∧
      (layeredT 50 3 0.08 0.92 1 (1/2) ≤ layeredT 50 (3 + 1) 0.08 0.92 1 (1/4) ∧
        |layeredY (layeredT 50 3 0.08 0.92 1 (1/2)) (1/2) -
            (layeredT 50 3 0.08 0.92 1 (1/2) * TREE_HEIGHT -
              TREE_HEIGHT / 2)| ≤ 0.06) :=
  ⟨by norm_num, by norm_num, by norm_num, by norm_num, by norm_num,
    by norm_num, by norm_num,
    C6_layered_monotone 50 3 0.08 0.92 (1/2) (1/4) (1/2) (by norm_num)
      (by norm_num) (by norm_num) (by norm_num) (by norm_num) (by norm_num)
      (by norm_num)⟩

/-- The zero vector, used as out-of-range array default. -/
def zeroV : Vec3 := ⟨0, 0, 0⟩

/-- The per-instance arrays of an OrnamentData record (part_002 lines
11-19); rotation entries are Euler angle triples. -/
structure OrnamentData where
  target : List Vec3
  chaos : List Vec3
  current : List Vec3
  rotation : List Vec3
  scale : List ℝ
  weight : List ℝ
  wobble : List ℝ

/-- The dummy Object3D transform written into an instance matrix slot. -/
structure Transform where
  position : Vec3
  rotation : Vec3
  scale : ℝ

/-- Default transform for out-of-range access. -/
def defaultTransform : Transform := ⟨zeroV, zeroV, 0⟩

/-- The sinusoidal wobble offset of an instance (part_002 lines 593-594):
sin(time * 0.8 + wobble[i]) * 0.05 * progress * (0.45 + weight[i]). -/
def wobbleAmount (progress time weight wob : ℝ) : ℝ :=
  Real.sin (time * 0.8 + wob) * 0.05 * progress * (0.45 + weight)

/-- One frame of updateInstances (part_002 lines 584-609): every instance
advances data.current[i] by the easing step, then the instance matrix is
written from a dummy transform whose position is the new current plus the
wobble offset on x and minus it on z, whose rotation adds wobble * 0.6 and
progress * 0.4 to the stored Euler angles, and whose scale is scale[i].
Only the current array of the ornament data is reassigned. -/
def updateInstances (data : OrnamentData) (progress time dt : ℝ) :
    OrnamentData × List Transform :=
  let newCurrent := (List.range data.current.length).map fun i =>
    updateCurrent progress (data.weight.getD i 0) dt
      (data.target.getD i zeroV) (data.chaos.getD i zeroV)
      (data.current.getD i zeroV)
  let transforms := (List.range data.current.length).map fun i =>
    let cur := updateCurrent progress (data.weight.getD i 0) dt
      (data.target.getD i zeroV) (data.chaos.getD i zeroV)
      (data.current.getD i zeroV)
    let wob := wobbleAmount progress time (data.weight.getD i 0)
      (data.wobble.getD i 0)
    Transform.mk
      ⟨cur.x + wob, cur.y, cur.z - wob⟩
      ⟨(data.rotation.getD i zeroV).x + wob * 0.6,
        (data.rotation.getD i zeroV).y + progress * 0.4,
        (data.rotation.getD i zeroV).z⟩
      (data.scale.getD i 0)
  ({ data with current := newCurrent }, transforms)

theorem getD_range_map {α : Type} (n : ℕ) (f : ℕ → α) (i : ℕ) (d : α)
    (h : i < n) : ((List.range n).map f).getD i d = f i := by
  have hlen : i < ((List.range n).map f).length := by simpa using h
  rw [List.getD_eq_getElem _ d hlen]
  simp

/-- Claim C8: the per-frame update leaves target, chaos, rotation, scale,
weight and wobble untouched — only current is replaced — and for every
in-range instance the stored new current is the pure easing step (with no
wobble term), while the transform written to the instance matrix carries
the new current plus the wobble offset on x and minus it on z; the wobble
is never folded back into the stored state, so it cannot accumulate. -/
theorem C8_update_mutates_only_current (data : OrnamentData)
    (progress time dt : ℝ) :
    (updateInstances data progress time dt).1.target = data.target ∧
    (updateInstances data progress time dt).1.chaos = data.chaos ∧
    (updateInstances data progress time dt).1.rotation = data.rotation ∧
    (updateInstances data progress time dt).1.scale = data.scale ∧
    (updateInstances data progress time dt).1.weight = data.weight ∧
    (updateInstances data progress time dt).1.wobble = data.wobble ∧
    ∀ i, i < data.current.length →
      (updateInstances data progress time dt).1.current.getD i zeroV =
        updateCurrent progress (data.weight.getD i 0) dt
          (data.target.getD i zeroV) (data.chaos.getD i zeroV)
          (data.current.getD i zeroV) ∧
      ((updateInstances data progress time dt).2.getD i
          defaultTransform).position =
        Vec3.mk
          (((updateInstances data progress time dt).1.current.getD i
              zeroV).x +
            wobbleAmount progress time (data.weight.getD i 0)
              (data.wobble.getD i 0))
          (((updateInstances data progress time dt).1.current.getD i
              zeroV).y)
          (((updateInstances data progress time dt).1.current.getD i
              zeroV).z -
            wobbleAmount progress time (data.weight.getD i 0)
              (data.wobble.getD i 0)) := by
  refine ⟨rfl, rfl, rfl, rfl, rfl, rfl, ?_⟩
  intro i hi
  have hcur : (updateInstances data progress time dt).1.current.getD i zeroV =
      updateCurrent progress (data.weight.getD i 0) dt
        (data.target.getD i zeroV) (data.chaos.getD i zeroV)
        (data.current.getD i zeroV) := by
    show ((List.range data.current.length).map _).getD i zeroV = _
    rw [getD_range_map _ _ _ _ hi]
  have htr : (updateInstances data progress time dt).2.getD i
      defaultTransform =
      Transform.mk
        ⟨(updateCurrent progress (data.weight.getD i 0) dt
            (data.target.getD i zeroV) (data.chaos.getD i zeroV)
            (data.current.getD i zeroV)).x +
          wobbleAmount progress time (data.weight.getD i 0)
            (data.wobble.getD i 0),
          (updateCurrent progress (data.weight.getD i 0) dt
            (data.target.getD i zeroV) (data.chaos.getD i zeroV)
            (data.current.getD i zeroV)).y,
          (updateCurrent progress (data.weight.getD i 0) dt
            (data.target.getD i zeroV) (data.chaos.getD i zeroV)
            (data.current.getD i zeroV)).z -
          wobbleAmount progress time (data.weight.getD i 0)
            (data.wobble.getD i 0)⟩
        ⟨(data.rotation.getD i zeroV).x +
            wobbleAmount progress time (data.weight.getD i 0)
              (data.wobble.getD i 0) * 0.6,
          (data.rotation.getD i zeroV).y + progress * 0.4,
          (data.rotation.getD i zeroV).z⟩
        (data.scale.getD i 0) := by
    show ((List.range data.current.length).map _).getD i defaultTransform = _
    rw [getD_range_map _ _ _ _ hi]
  rw [hcur, htr]
  exact ⟨rfl, rfl⟩

/-- A one-instance ornament data record used as a concrete sample. -/
def sampleData : OrnamentData :=
  ⟨[⟨1, 0, 0⟩], [⟨0, 1, 0⟩], [⟨0, 0, 1⟩], [⟨0, 0, 0⟩], [1], [0], [0]⟩

/-- Closed witness for C8 on the one-instance sample at index 0. -/
theorem C8_update_mutates_only_current_witness :
    0 < sampleData.current.length ∧
      ((updateInstances sampleData 1 0 1).1.current.getD 0 zeroV =
          updateCurrent 1 (sampleData.weight.getD 0 0) 1
            (sampleData.target.getD 0 zeroV) (sampleData.chaos.getD 0 zeroV)
            (sampleData.current.getD 0 zeroV) ∧
        ((updateInstances sampleData 1 0 1).2.getD 0
            defaultTransform).position =
          Vec3.mk
            (((updateInstances sampleData 1 0 1).1.current.getD 0 zeroV).x +
              wobbleAmount 1 0 (sampleData.weight.getD 0 0)
                (sampleData.wobble.getD 0 0))
            (((updateInstances sampleData 1 0 1).1.current.getD 0 zeroV).y)
            (((updateInstances sampleData 1 0 1).1.current.getD 0 zeroV).z -
              wobbleAmount 1 0 (sampleData.weight.getD 0 0)
                (sampleData.wobble.getD 0 0))) :=
  ⟨Nat.one_pos,
    (C8_update_mutates_only_current sampleData 1 0 1).2.2.2.2.2.2 0
      Nat.one_pos⟩

/-- AZIMUTH_RANGE = 0.75 (GestureCameraController.tsx line 19). -/
def AZIMUTH_RANGE : ℝ := 0.75

/-- POLAR_RANGE = 0.45 (GestureCameraController.tsx line 20). -/
def POLAR_RANGE : ℝ := 0.45

/-- THREE.MathUtils.clamp(v, min, max) = max(min, min(max, v)). -/
def clampR (v lo hi : ℝ) : ℝ := max lo (min hi v)

/-- THREE.MathUtils.damp(x, y, lambda, dt): exponential pursuit,
lerp(x, y, 1 - exp(-lambda * dt)). -/
def damp (x y lambda dt : ℝ) : ℝ := lerp x y (1 - Real.exp (-lambda * dt))

/-- The hand movement signal read by the camera controller each frame. -/
structure CamInput where
  x : ℝ
  y : ℝ
  active : Bool

/-- A captured azimuth/polar baseline (baseAnglesRef). -/
structure Baseline where
  azimuth : ℝ
  polar : ℝ

/-- The camera controller state: optional captured baseline and the orbit
controls' current azimuthal and polar angles. -/
structure CamState where
  baseline : Option Baseline
  azimuth : ℝ
  polar : ℝ

/-- One useFrame tick of GestureCameraController (lines 30-65): if no hand
is active, drop any captured baseline and leave the angles alone; else
capture the current angles as baseline if none is stored, then damp both
angles toward baseline-relative targets (the polar target clamped to the
allowed range). -/
def cameraFrame (minPolarAngle maxPolarAngle : ℝ) (s : CamState)
    (hand : CamInput) (dt : ℝ) : CamState :=
  if hand.active then
    let base := s.baseline.getD ⟨s.azimuth, s.polar⟩
    CamState.mk (some base)
      (damp s.azimuth (base.azimuth - hand.x * AZIMUTH_RANGE) 5 dt)
      (damp s.polar
        (clampR (base.polar + hand.y * POLAR_RANGE) minPolarAngle
          maxPolarAngle) 5 dt)
  else
    { s with baseline := none }

/-- Claim C7: the baseline is dropped on every frame with no active hand
and captured from the controls' current angles on the first active frame
with none stored; across inactive → active → inactive → active, the frame
before the second activation holds no baseline, and the second activation
captures exactly the orbit angles in force at that moment (not the
first activation's). -/
theorem C7_baseline_recapture (minP maxP : ℝ) (s : CamState)
    (h1 h2 h3 h4 : CamInput) (dt1 dt2 dt3 dt4 : ℝ)
    (ha1 : h1.active = false) (ha2 : h2.active = true)
    (ha3 : h3.active = false) (ha4 : h4.active = true) :
    (cameraFrame minP maxP
        (cameraFrame minP maxP (cameraFrame minP maxP s h1 dt1) h2 dt2)
        h3 dt3).baseline = none ∧
    (cameraFrame minP maxP
        (cameraFrame minP maxP
          (cameraFrame minP maxP (cameraFrame minP maxP s h1 dt1) h2 dt2)
          h3 dt3)
        h4 dt4).baseline =
      some
        ⟨(cameraFrame minP maxP
            (cameraFrame minP maxP (cameraFrame minP maxP s h1 dt1) h2 dt2)
            h3 dt3).azimuth,
          (cameraFrame minP maxP
            (cameraFrame minP maxP (cameraFrame minP maxP s h1 dt1) h2 dt2)
            h3 dt3).polar⟩ := by
  constructor
  · simp [cameraFrame, ha3]
  · simp [cameraFrame, ha3, ha4]

/-- Closed witness for C7 at concrete states and inputs. -/
theorem C7_baseline_recapture_witness :
    (CamInput.mk 0 0 false).active = false ∧
    (CamInput.mk (1/2) 0 true).active = true ∧
    (CamInput.mk 0 0 false).active = false ∧
    (CamInput.mk 0 (1/4) true).active = true ∧
    ((cameraFrame 0 1
        (cameraFrame 0 1
          (cameraFrame 0 1 (CamState.mk none 0 1) (CamInput.mk 0 0 false) 1)
          (CamInput.mk (1/2) 0 true) 1)
        (CamInput.mk 0 0 false) 1).baseline = none ∧
      (cameraFrame 0 1
          (cameraFrame 0 1
            (cameraFrame 0 1
              (cameraFrame 0 1 (CamState.mk none 0 1) (CamInput.mk 0 0 false)
                1)
              (CamInput.mk (1/2) 0 true) 1)
            (CamInput.mk 0 0 false) 1)
          (CamInput.mk 0 (1/4) true) 1).baseline =
        some
          ⟨(cameraFrame 0 1
              (cameraFrame 0 1
                (cameraFrame 0 1 (CamState.mk none 0 1)
                  (CamInput.mk 0 0 false) 1)
                (CamInput.mk (1/2) 0 true) 1)
              (CamInput.mk 0 0 false) 1).azimuth,
            (cameraFrame 0 1
              (cameraFrame 0 1
                (cameraFrame 0 1 (CamState.mk none 0 1)
                  (CamInput.mk 0 0 false) 1)
                (CamInput.mk (1/2) 0 true) 1)
              (CamInput.mk 0 0 false) 1).polar⟩) :=
  ⟨rfl, rfl, rfl, rfl,
    C7_baseline_recapture 0 1 (CamState.mk none 0 1) (CamInput.mk 0 0 false)
      (CamInput.mk (1/2) 0 true) (CamInput.mk 0 0 false)
      (CamInput.mk 0 (1/4) true) 1 1 1 1 rfl rfl rfl rfl⟩

end

end XmasTree
